import Mathlib

/-!
# Space-Typing-Adventure: verification of the screen switcher and the
positioned-entity wrapper

A shallow embedding of the TypeScript sources:

* `types.ts` — the `View` contract, the `Screen` tagged union, the
  `ScreenController` base class and the `Object` positioned-entity wrapper
  around a `Konva.Group` handle;
* `main.ts` — the `App` class implementing `ScreenSwitcher.switchToScreen`;
* `GameScreenController.ts` — `startGame` (reset model, then show view);
* `MenuScreenController.ts` / `MenuScreenView.ts` — show/hide on a Konva
  group plus a redraw request on the attached layer.

TypeScript `number` values are embedded as `ℚ`.  Konva objects are embedded
as records of the attributes the sources read or write.  Files imported by
the sources but absent from the repository snapshot (`constants.ts`,
`GameScreenView.ts`, `GameScreenModel.ts`) are modelled from the spec and
marked as such in their doc comments.
-/

namespace SpaceTyping

/-- Modelled from the spec: `constants.ts` is absent from the sources.  The
spec says only that the composition root supplies the container dimensions at
startup.  A concrete stage width is fixed here; no claim's verdict depends on
the particular value. -/
def STAGE_WIDTH : ℚ := 800

/-- Modelled from the spec: `constants.ts` is absent from the sources; the
concrete stage height, fixed arbitrarily. -/
def STAGE_HEIGHT : ℚ := 600

/-- The attributes of a `Konva.Group` that the sources read or write:
visibility, position, rotation, per-axis scale, anchor offset, and the
measured intrinsic size. -/
structure KGroup where
  visible : Bool
  x : ℚ
  y : ℚ
  rotation : ℚ
  scaleX : ℚ
  scaleY : ℚ
  offsetX : ℚ
  offsetY : ℚ
  width : ℚ
  height : ℚ
  deriving DecidableEq, Repr

/-- The entity wrapper `class Object` from `types.ts`.  Fields `Id`, `rank`,
`rotation`, `scale`, `x`, `y`, `image` embed the stored fields `_Id`, `_rank`,
`_rotation`, `_scale`, `_x`, `_y`, `_image`; the TypeScript getters simply
return these stored fields. -/
structure Object where
  Id : ℕ
  rank : ℚ
  rotation : ℚ
  scale : ℚ
  x : ℚ
  y : ℚ
  image : KGroup
  deriving DecidableEq, Repr

/-- The `Object` constructor.  The module-level counter `let ID = 0` together
with `this._Id = ID++` is embedded by passing the current counter in and
returning the constructed object together with the incremented counter.  The
body stores `rank`, `rotation = 0`, `scale = 1`, `x`, `y`, the handle, and
then writes the handle's `offsetX`/`offsetY` to half its measured width and
height.  It does not touch the handle's `x`/`y`. -/
def Object.construct (ID : ℕ) (image : KGroup) (rank x y : ℚ) : Object × ℕ :=
  ({ Id := ID
     rank := rank
     rotation := 0
     scale := 1
     x := x
     y := y
     image := { image with offsetX := image.width / 2, offsetY := image.height / 2 } },
   ID + 1)

/-- The constructor invoked with the TypeScript default arguments
`rank = 1`, `x = STAGE_WIDTH / 2`, `y = STAGE_HEIGHT / 2`. -/
def Object.constructDefault (ID : ℕ) (image : KGroup) : Object × ℕ :=
  Object.construct ID image 1 (STAGE_WIDTH / 2) (STAGE_HEIGHT / 2)

/-- The constructor with a possibly-absent handle.  The parameter is typed
non-nullable in TypeScript; if a missing handle is passed anyway, the body
throws at `this._image.offsetX(...)` — the failure is at construction time,
exactly when the handle is absent. -/
def Object.constructChecked (ID : ℕ) (image : Option KGroup) (rank x y : ℚ) :
    Option (Object × ℕ) :=
  match image with
  | none => none
  | some img => some (Object.construct ID img rank x y)

/-- The `rank` setter: stores the value; no side effect on the handle. -/
def Object.setRank (o : Object) (value : ℚ) : Object :=
  { o with rank := value }

/-- The `rotation` setter: stores the value and propagates it to the handle's
rotation. -/
def Object.setRotation (o : Object) (value : ℚ) : Object :=
  { o with rotation := value, image := { o.image with rotation := value } }

/-- The `scale` setter: stores the value and applies it to both the handle's
`scaleX` and `scaleY`. -/
def Object.setScale (o : Object) (value : ℚ) : Object :=
  { o with scale := value, image := { o.image with scaleX := value, scaleY := value } }

/-- The `x` setter: stores the value and propagates it to the handle's `x`. -/
def Object.setX (o : Object) (value : ℚ) : Object :=
  { o with x := value, image := { o.image with x := value } }

/-- The `y` setter: stores the value and propagates it to the handle's `y`. -/
def Object.setY (o : Object) (value : ℚ) : Object :=
  { o with y := value, image := { o.image with y := value } }

/-- The `image` setter: replaces the stored handle with the given one,
touching nothing else — in particular it does not re-run the center-offset
calculation. -/
def Object.setImage (o : Object) (value : KGroup) : Object :=
  { o with image := value }

/-- Constructing a list of entities in sequence, threading the module-level
`ID` counter through the constructor calls (defaults for rank and position). -/
def constructMany (n : ℕ) : List KGroup → List Object
  | [] => []
  | g :: gs =>
      (Object.constructDefault n g).1 :: constructMany (Object.constructDefault n g).2 gs

/-- The observable state of one screen's `View`: the visibility of its owned
Konva group, whether the group is attached to a layer (`getGroup().getLayer()`
is non-null), and how many `draw()` requests have been issued on that layer
through this view.  `MenuScreenView` in the sources carries exactly this
behavior; the absent `GameScreenView.ts` is modelled from the spec's View
contract, which prescribes the same visibility-flip-plus-redraw behavior. -/
structure ViewState where
  visible : Bool
  attached : Bool
  layerDraws : ℕ
  deriving DecidableEq, Repr

/-- `show()` from `MenuScreenView` (and the spec's View contract): set the
group visible, then `getLayer()?.draw()` — the redraw happens only when the
group is attached to a layer. -/
def showView (v : ViewState) : ViewState :=
  { v with visible := true
           layerDraws := v.layerDraws + (if v.attached then 1 else 0) }

/-- `hide()` from `MenuScreenView` (and the spec's View contract): set the
group invisible, then request a redraw when attached. -/
def hideView (v : ViewState) : ViewState :=
  { v with visible := false
           layerDraws := v.layerDraws + (if v.attached then 1 else 0) }

/-- A copy of a view state with the redraw counter zeroed, used to state that
two view states agree on everything except the redraw requests issued. -/
def eraseDraws (v : ViewState) : ViewState :=
  { v with layerDraws := 0 }

/-- Modelled from the spec: `GameScreenModel.ts` is absent from the sources.
The spec says only that the game controller owns a Model holding the screen's
transient game state and that `startGame` performs reset-then-show; the model
is embedded as an abstract state value whose `reset` restores the initial
state. -/
structure GameScreenModel where
  progress : ℕ
  deriving DecidableEq, Repr

/-- The initial game-model state produced by `new GameScreenModel()`. -/
def GameScreenModel.initial : GameScreenModel := ⟨0⟩

/-- Modelled from the spec: `reset()` restores the model to its initial
state. -/
def GameScreenModel.reset (_m : GameScreenModel) : GameScreenModel :=
  GameScreenModel.initial

/-- The `Screen` tagged union from `types.ts`: a closed variant set with
tags `menu` and `game` (each variant carries no payload). -/
inductive Screen where
  | menu : Screen
  | game : Screen
  deriving DecidableEq, Repr

/-- The part of the `App` state the navigation claims observe: the menu
controller's view, the game controller's view, and the game controller's
model. -/
structure AppState where
  menuView : ViewState
  gameView : ViewState
  gameModel : GameScreenModel
  deriving DecidableEq, Repr

/-- `GameScreenController.startGame()`: reset the model state, then show the
game view. -/
def startGame (a : AppState) : AppState :=
  let a1 := { a with gameModel := a.gameModel.reset }
  { a1 with gameView := showView a1.gameView }

/-- `App.switchToScreen(screen)` from `main.ts`: hide the menu controller,
hide the game controller, then dispatch on the screen tag — `menu` shows the
menu controller, `game` calls `startGame()`.  The controller `show`/`hide`
methods delegate unconditionally to the view's `show`/`hide`
(`ScreenController` base class in `types.ts`). -/
def switchToScreen (s : Screen) (a : AppState) : AppState :=
  let a1 := { a with menuView := hideView a.menuView }
  let a2 := { a1 with gameView := hideView a1.gameView }
  match s with
  | .menu => { a2 with menuView := showView a2.menuView }
  | .game => startGame a2

/-- The `App` state right after the constructor runs: both views are attached
to the shared layer, the layer has been drawn once, the menu view (constructed
visible, then shown by the constructor's final `show()`) is visible, and the
game view is hidden (modelled from the spec: `GameScreenView.ts` is absent;
the spec designates the menu as the sole startup-visible screen). -/
def initialApp : AppState :=
  { menuView := showView { visible := true, attached := true, layerDraws := 1 }
    gameView := { visible := false, attached := true, layerDraws := 1 }
    gameModel := GameScreenModel.initial }

/-- Run a sequence of `switchToScreen` calls from a given state. -/
def runSwitches (l : List Screen) (a : AppState) : AppState :=
  l.foldl (fun st s => switchToScreen s st) a

/-- How many of the two controllers' views report visible. -/
def visibleCount (a : AppState) : ℕ :=
  (if a.menuView.visible then 1 else 0) + (if a.gameView.visible then 1 else 0)

/-- The individual mutation steps `switchToScreen` performs, in order, used
to reason about the intermediate states within one synchronous execution. -/
inductive NavEvent where
  | hideMenu : NavEvent
  | hideGame : NavEvent
  | showMenu : NavEvent
  | resetModel : NavEvent
  | showGame : NavEvent
  deriving DecidableEq, Repr

/-- The effect of one mutation step on the app state. -/
def stepEvent (a : AppState) (e : NavEvent) : AppState :=
  match e with
  | .hideMenu => { a with menuView := hideView a.menuView }
  | .hideGame => { a with gameView := hideView a.gameView }
  | .showMenu => { a with menuView := showView a.menuView }
  | .resetModel => { a with gameModel := a.gameModel.reset }
  | .showGame => { a with gameView := showView a.gameView }

/-- The sequence of mutation steps one call of `switchToScreen` performs:
hide the menu view, hide the game view, then the entry action of the target
screen (`show` for menu; `startGame` = reset-then-show for game). -/
def switchEvents : Screen → List NavEvent
  | .menu => [.hideMenu, .hideGame, .showMenu]
  | .game => [.hideMenu, .hideGame, .resetModel, .showGame]

/-- The trace of states one call of `switchToScreen s` passes through,
starting from the entry state: the entry state followed by the state after
each mutation step. -/
def switchTrace (s : Screen) (a : AppState) : List AppState :=
  (switchEvents s).scanl stepEvent a

/-- A concrete Konva group used as sample input: positioned at the origin
with stale offsets, measuring 100 by 50. -/
def sampleGroup : KGroup :=
  { visible := true
    x := 0
    y := 0
    rotation := 0
    scaleX := 1
    scaleY := 1
    offsetX := 7
    offsetY := 8
    width := 100
    height := 50 }

/-- The identities assigned by a run of constructions are the consecutive
numbers starting at the initial counter value. -/
theorem constructMany_ids (n : ℕ) (gs : List KGroup) :
    (constructMany n gs).map (fun o => o.Id) = List.range' n gs.length := by
  induction gs generalizing n with
  | nil => rfl
  | cons g gs ih =>
      simp only [constructMany, List.map_cons, List.length_cons, List.range'_succ,
        List.cons.injEq]
      exact ⟨rfl, ih (n + 1)⟩

/-- C1: for every sequence of `switchToScreen` calls from the initial `App`
state, after each call exactly one of the two controllers' views reports
visible.  The `Screen` variant set is closed (`menu` and `game` are the only
tags), so every call carries a recognized tag and the count is exactly one —
in particular never two. -/
theorem C1_exactly_one_visible_after_each_switch (l : List Screen) (s : Screen) :
    visibleCount (runSwitches (l ++ [s]) initialApp) = 1 := by
  have h : ∀ a t, visibleCount (switchToScreen t a) = 1 := by
    intro a t
    cases t <;>
      simp [switchToScreen, startGame, visibleCount, hideView, showView]
  simpa [runSwitches, List.foldl_append] using h (runSwitches l initialApp) s

/-- C2: within one synchronous execution of `switchToScreen`, from any entry
state, the two hide steps come first (`take 2` of the event list is hide-menu,
hide-game), every intermediate state reached after a mutation step has the two
views not visible simultaneously, and the final trace state is exactly the
result of `switchToScreen`. -/
theorem C2_hide_all_before_show_one (a : AppState) (s : Screen) :
    (switchEvents s).take 2 = [NavEvent.hideMenu, NavEvent.hideGame]
      ∧ ((switchTrace s a).tail.all fun st =>
          !(st.menuView.visible && st.gameView.visible)) = true
      ∧ (switchTrace s a).getLast? = some (switchToScreen s a) := by
  cases s <;>
    refine ⟨rfl, ?_, rfl⟩ <;>
      simp [switchTrace, switchEvents, List.scanl, stepEvent, hideView, showView]

/-- C3: `switchToScreen {type: "game"}` runs `startGame` on the
hidden-everything state; within `startGame` the model reset step precedes the
show step (its event index is strictly smaller); and afterwards the game view
is visible, the menu view is hidden, and the game model equals the reset
(initial) state. -/
theorem C3_switch_to_game_resets_then_shows (a : AppState) :
    switchToScreen Screen.game a
        = startGame { a with menuView := hideView a.menuView
                             gameView := hideView a.gameView }
      ∧ (switchEvents Screen.game).indexOf NavEvent.resetModel
          < (switchEvents Screen.game).indexOf NavEvent.showGame
      ∧ (switchToScreen Screen.game a).gameView.visible = true
      ∧ (switchToScreen Screen.game a).menuView.visible = false
      ∧ (switchToScreen Screen.game a).gameModel = GameScreenModel.initial := by
  exact ⟨rfl, by decide, rfl, rfl, rfl⟩

/-- C4 counterexample: default construction leaves the handle at its previous
position; for a handle sitting at the origin, after construction the handle's
x/y are still 0, not the container midpoint, so the claim's assertion that the
handle is positioned at (STAGE_WIDTH/2, STAGE_HEIGHT/2) is false. -/
theorem C4_counterexample :
    ¬ ((Object.constructDefault 0 sampleGroup).1.image.x = STAGE_WIDTH / 2
        ∧ (Object.constructDefault 0 sampleGroup).1.image.y = STAGE_HEIGHT / 2) := by
  norm_num [Object.constructDefault, Object.construct, sampleGroup, STAGE_WIDTH,
    STAGE_HEIGHT]

/-- C4 (amended): default construction stores the container midpoint as the
entity's x/y (the handle's own x/y are left untouched), and at construction
the handle's offsetX/offsetY are set to half its measured width/height. -/
theorem C4_default_construction_centers_and_offsets (n : ℕ) (g : KGroup) :
    (Object.constructDefault n g).1.x = STAGE_WIDTH / 2
      ∧ (Object.constructDefault n g).1.y = STAGE_HEIGHT / 2
      ∧ (Object.constructDefault n g).1.image.offsetX = g.width / 2
      ∧ (Object.constructDefault n g).1.image.offsetY = g.height / 2
      ∧ (Object.constructDefault n g).1.image.x = g.x
      ∧ (Object.constructDefault n g).1.image.y = g.y := by
  exact ⟨rfl, rfl, rfl, rfl, rfl, rfl⟩

/-- C5: construction succeeds exactly when the renderable handle is present
(it fails fast at construction on a missing handle), and every transform
setter is a total function: on any object and any input value it returns the
corresponding record update, with no failing case. -/
theorem C5_construct_fails_iff_handle_absent (ID : ℕ) (image : Option KGroup)
    (rank x y : ℚ) (o : Object) (v : ℚ) (g : KGroup) :
    ((Object.constructChecked ID image rank x y).isSome ↔ image.isSome)
      ∧ o.setRank v = { o with rank := v }
      ∧ o.setRotation v = { o with rotation := v
                                   image := { o.image with rotation := v } }
      ∧ o.setScale v = { o with scale := v
                                image := { o.image with scaleX := v, scaleY := v } }
      ∧ o.setX v = { o with x := v, image := { o.image with x := v } }
      ∧ o.setY v = { o with y := v, image := { o.image with y := v } }
      ∧ o.setImage g = { o with image := g } := by
  refine ⟨?_, rfl, rfl, rfl, rfl, rfl, rfl⟩
  cases image <;> simp [Object.constructChecked]

/-- C6: each transform setter immediately writes exactly the set value to the
corresponding observable attribute of the handle — no transformation,
normalization or clamping — and `scale` applies the factor to both the
handle's scaleX and scaleY. -/
theorem C6_setters_propagate_exactly (o : Object) (v : ℚ) :
    (o.setRotation v).image.rotation = v
      ∧ (o.setScale v).image.scaleX = v
      ∧ (o.setScale v).image.scaleY = v
      ∧ (o.setX v).image.x = v
      ∧ (o.setY v).image.y = v
      ∧ (o.setRotation v).rotation = v
      ∧ (o.setScale v).scale = v
      ∧ (o.setX v).x = v
      ∧ (o.setY v).y = v := by
  exact ⟨rfl, rfl, rfl, rfl, rfl, rfl, rfl, rfl, rfl⟩

/-- C7: constructing N entities in sequence yields N pairwise-distinct
identities (the consecutive counter values, never reused within the run), and
no setter changes an already-assigned identity.  Reading the identity is a
pure field access, so reading it twice trivially returns the same value. -/
theorem C7_identities_unique_and_stable (n : ℕ) (gs : List KGroup)
    (o : Object) (v : ℚ) (g : KGroup) :
    ((constructMany n gs).map (fun o => o.Id)).Nodup
      ∧ (constructMany n gs).length = gs.length
      ∧ (o.setRank v).Id = o.Id
      ∧ (o.setRotation v).Id = o.Id
      ∧ (o.setScale v).Id = o.Id
      ∧ (o.setX v).Id = o.Id
      ∧ (o.setY v).Id = o.Id
      ∧ (o.setImage g).Id = o.Id := by
  refine ⟨?_, ?_, rfl, rfl, rfl, rfl, rfl, rfl⟩
  · rw [constructMany_ids]
    exact List.nodup_range' n gs.length
  · have h := congrArg List.length (constructMany_ids n gs)
    simp at h
    exact h

/-- C8: `show()` and `hide()` are idempotent on any view — a second
consecutive call leaves the same visibility and changes nothing beyond one
more redraw request (issued only when a layer is attached) — and
show-hide-show leaves the view visible while a repeated hide leaves it
hidden. -/
theorem C8_show_hide_idempotent (v : ViewState) :
    (showView (showView v)).visible = (showView v).visible
      ∧ eraseDraws (showView (showView v)) = eraseDraws (showView v)
      ∧ (showView (showView v)).layerDraws
          = (showView v).layerDraws + (if v.attached then 1 else 0)
      ∧ (hideView (hideView v)).visible = (hideView v).visible
      ∧ eraseDraws (hideView (hideView v)) = eraseDraws (hideView v)
      ∧ (hideView (hideView v)).layerDraws
          = (hideView v).layerDraws + (if v.attached then 1 else 0)
      ∧ (showView (hideView (showView v))).visible = true
      ∧ (hideView (hideView v)).visible = false := by
  exact ⟨rfl, rfl, rfl, rfl, rfl, rfl, rfl, rfl⟩

/-- C9: swapping the handle stores the new renderable verbatim and changes no
bookkeeping — identity, rank, rotation, scale and stored x/y are untouched —
and the center-offset calculation is not re-run: the new handle keeps exactly
the offsetX/offsetY it had before the swap. -/
theorem C9_handle_swap_preserves_bookkeeping (o : Object) (g : KGroup) :
    (o.setImage g).Id = o.Id
      ∧ (o.setImage g).rank = o.rank
      ∧ (o.setImage g).rotation = o.rotation
      ∧ (o.setImage g).scale = o.scale
      ∧ (o.setImage g).x = o.x
      ∧ (o.setImage g).y = o.y
      ∧ (o.setImage g).image = g
      ∧ (o.setImage g).image.offsetX = g.offsetX
      ∧ (o.setImage g).image.offsetY = g.offsetY := by
  exact ⟨rfl, rfl, rfl, rfl, rfl, rfl, rfl, rfl, rfl⟩

/-- C10: the constructor writes only the handle's offsetX/offsetY; the
handle's x/y stay whatever they were before construction, so the stored
position and the handle's position can differ (they do on `sampleGroup`,
where the stored default x is the midpoint 400 while the handle's x stays 0)
until the x or y setter is first invoked, which re-synchronizes them. -/
theorem C10_constructor_does_not_position_handle (n : ℕ) (g : KGroup) (r px py v : ℚ) :
    (Object.construct n g r px py).1.image.x = g.x
      ∧ (Object.construct n g r px py).1.image.y = g.y
      ∧ (Object.construct n g r px py).1.image
          = { g with offsetX := g.width / 2, offsetY := g.height / 2 }
      ∧ ((Object.construct n g r px py).1.setX v).image.x = v
      ∧ ((Object.construct n g r px py).1.setY v).image.y = v
      ∧ (Object.constructDefault 0 sampleGroup).1.x
          ≠ (Object.constructDefault 0 sampleGroup).1.image.x := by
  refine ⟨rfl, rfl, rfl, rfl, rfl, ?_⟩
  norm_num [Object.constructDefault, Object.construct, sampleGroup, STAGE_WIDTH]

end SpaceTyping
